import Mathlib

/-!
Shallow embedding of the Water-Quality-Monitor-App dashboard pipeline
(`src/app.py`, "Dashboard" page, lines 63-211).

Tables model pandas DataFrames: a list of column headers plus rows of cells.
A cell is either a number (CSV-inferred numeric column; floats are modelled
as rationals) or a string (e.g. the composite "value/temp" EC column and
the status columns).  Fallible steps return `Except String`, covering both
the caught-and-`st.stop()` aborts and the uncaught pandas exceptions of the
script; in either case the run produces no output table.
-/

namespace WaterApp

/-- A DataFrame cell: numeric (floats modelled as `ℚ`) or string. -/
inductive Cell where
  | num (q : ℚ)
  | str (s : String)
deriving DecidableEq, Repr

/-- A DataFrame: headers plus rows of cells (row i, column j as `rows[i][j]`). -/
structure Table where
  headers : List String
  rows : List (List Cell)
deriving DecidableEq, Repr

/-- Well-formed DataFrame: every row has one cell per header. -/
def WF (t : Table) : Prop := ∀ r ∈ t.rows, r.length = t.headers.length

/-- Index of the first column with the given (exact, case-sensitive) name,
as in `df[name]` / `pd.merge(..., on=name)`. -/
def findIdx (name : String) : List String → Option Nat
  | [] => none
  | h :: t => if h = name then some 0 else (findIdx name t).map (· + 1)

/-- Numeric view of a cell (`None` for string cells). -/
def asNum : Cell → Option ℚ
  | Cell.num q => some q
  | Cell.str _ => none

/-- Digit list to a natural number; `none` on a non-digit or the empty list. -/
def digitsToNat : List Char → Option Nat
  | [] => none
  | cs => go cs 0
where
  go : List Char → Nat → Option Nat
    | [], acc => some acc
    | c :: t, acc => if c.isDigit then go t (acc * 10 + (c.toNat - 48)) else none

/-- Split a character list at every occurrence of `c`, as Python `str.split(c)`. -/
def splitOnCharAux (c : Char) : List Char → List Char → List (List Char)
  | [], acc => [acc.reverse]
  | x :: t, acc => if x = c then acc.reverse :: splitOnCharAux c t [] else splitOnCharAux c t (x :: acc)

def splitOnChar (c : Char) (cs : List Char) : List (List Char) := splitOnCharAux c cs []

/-- Plain decimal parser modelling `astype(float)` on strings of the shape
`[+|-]digits[.digits]` (surrounding spaces allowed); exponent/inf/nan float
syntax is outside the inputs this development exercises. -/
def parseDecimal (cs : List Char) : Option ℚ :=
  let cs := (cs.dropWhile (· = ' ')).reverse.dropWhile (· = ' ') |>.reverse
  let (neg, cs) :=
    match cs with
    | '-' :: t => (true, t)
    | '+' :: t => (false, t)
    | _ => (false, cs)
  let sign : ℚ := if neg then -1 else 1
  match splitOnChar '.' cs with
  | [intPart] => (digitsToNat intPart).map fun n => sign * n
  | [intPart, fracPart] =>
      match intPart, fracPart with
      | [], [] => none
      | _, _ =>
          let i := if intPart = [] then some 0 else digitsToNat intPart
          let f := if fracPart = [] then some 0 else digitsToNat fracPart
          match i, f with
          | some i, some f => some (sign * (i + (f : ℚ) / (10 : ℚ) ^ fracPart.length))
          | _, _ => none
  | _ => none

/-- `phys_df['EC'].str.split('/', expand=True).astype(float)` on one value:
the composite string must split on `/` into exactly two parseable numbers. -/
def parseEC (s : String) : Option (ℚ × ℚ) :=
  match (splitOnChar '/' s.toList).map parseDecimal with
  | [some a, some b] => some (a, b)
  | _ => none

/-- The `st.error` message of the EC-split `except` branch; it quotes the
offending raw value, as the Python exception text does. -/
def ecErrMsg (v : String) : String :=
  "Unable to split EC. Please ensure it is in value/temp format. Error: could not convert: " ++ v

/-- Split one physical row's EC composite (column index `i`) into appended
`ec_val` and `temp` cells; any failure is the caught exception of the `try`. -/
def splitRow (i : Nat) (row : List Cell) : Except String (List Cell) :=
  match row.get? i with
  | some (Cell.str s) =>
      match parseEC s with
      | some (a, b) => Except.ok (row ++ [Cell.num a, Cell.num b])
      | none => Except.error (ecErrMsg s)
  | _ => Except.error "Unable to split EC. Error: str accessor needs string values"

/-- Lines 69-73: `phys_df[['ec_val','temp']] = phys_df['EC'].str.split('/', expand=True).astype(float)`
inside `try`; on exception the script shows the error and `st.stop()`s, so the
whole run aborts.  The column lookup `phys_df['EC']` is exact-case. -/
def splitEC (t : Table) : Except String Table :=
  match findIdx "EC" t.headers with
  | none => Except.error (ecErrMsg "KeyError: EC")
  | some i => do
      let rows ← t.rows.mapM (splitRow i)
      Except.ok { headers := t.headers ++ ["ec_val", "temp"], rows := rows }

/-- Line 76: `pd.merge(phys_df, bact_df, on="Sample", how="inner")`; exact-case
key column in both frames (a missing key raises an uncaught `KeyError`).
One output row per matching left-row/right-row pair, left order preserved;
right columns keep all but the key. -/
def mergeTables (a b : Table) (key : String) : Except String Table :=
  match findIdx key a.headers, findIdx key b.headers with
  | some i, some j =>
      Except.ok
        { headers := a.headers ++ b.headers.eraseIdx j,
          rows := a.rows.flatMap fun ra =>
            (b.rows.filter fun rb => decide (rb.get? j = ra.get? i)).map fun rb =>
              ra ++ rb.eraseIdx j }
  | _, _ => Except.error "KeyError: merge key Sample absent"

/-- Canonical header form, `str.strip().str.lower()`. -/
def canonHeader (s : String) : String :=
  (((s.toList.dropWhile (· = ' ')).reverse.dropWhile (· = ' ')).reverse.map Char.toLower).asString

/-- Line 77: `df.columns = df.columns.str.strip().str.lower()` — applied only
AFTER the EC split and the merge. -/
def lowerHeaders (t : Table) : Table :=
  { headers := t.headers.map canonHeader, rows := t.rows }

/-- Two raw headers are casing/whitespace variants of each other, provided
neither is a respelling of one of the two exact-case headers the pipeline
reads BEFORE normalization (`EC` in the split, `Sample` in the merge). -/
def headerVariant (h h' : String) : Prop :=
  canonHeader h' = canonHeader h ∧ (h' = "EC" ↔ h = "EC") ∧ (h' = "Sample" ↔ h = "Sample")

/-- Line 81 lambda: `"✅ OK" if 6.5 <= x <= 8.5 else "⚠️ Out of Range"`. -/
def ph_rule (x : ℚ) : String :=
  if 6.5 ≤ x ∧ x ≤ 8.5 then "✅ OK" else "⚠️ Out of Range"

/-- Line 86 lambda: `"✅ OK" if x <= 1000 else "⚠️ High"`. -/
def tds_rule (x : ℚ) : String :=
  if x ≤ 1000 then "✅ OK" else "⚠️ High"

/-- Line 91 lambda: `"✅ OK" if x <= 1400 else "⚠️ High"`. -/
def ec_rule (x : ℚ) : String :=
  if x ≤ 1400 then "✅ OK" else "⚠️ High"

/-- Line 96 lambda: `"✅ Safe" if x == 0 else "🚨 Unsafe"`. -/
def coliform_rule (x : ℚ) : String :=
  if x = 0 then "✅ Safe" else "🚨 Unsafe"

/-- Lines 101-106 lambda: Soft / Moderate / Hard / Very Hard bands. -/
def hardness_rule (x : ℚ) : String :=
  if x ≤ 60 then "💧 Soft"
  else if x ≤ 120 then "🧂 Moderate"
  else if x ≤ 180 then "🪨 Hard"
  else "⚠️ Very Hard"

/-- Line 111 lambda: `"✅ Good" if x >= 6 else "⚠️ Low"`. -/
def do_rule (x : ℚ) : String :=
  if 6 ≤ x then "✅ Good" else "⚠️ Low"

/-- One WHO-check block (lines 80-113 pattern): if column `src` exists, append
column `dst` with the rule applied per row (a string cell where a number is
expected would raise an uncaught `TypeError` in the comparison lambdas);
otherwise append a constant `"⚠️ Missing"` column. -/
def addStatusCol (t : Table) (src dst : String) (rule : ℚ → String) : Except String Table :=
  match findIdx src t.headers with
  | some i => do
      let rows ← t.rows.mapM fun row =>
        match (row.get? i).bind asNum with
        | some q => Except.ok (row ++ [Cell.str (rule q)])
        | none => Except.error "TypeError in WHO check lambda"
      Except.ok { headers := t.headers ++ [dst], rows := rows }
  | none =>
      Except.ok { headers := t.headers ++ [dst],
                  rows := t.rows.map fun row => row ++ [Cell.str "⚠️ Missing"] }

/-- Lines 80-113: the six WHO checks, in source order. -/
def statusStage (t : Table) : Except String Table := do
  let t ← addStatusCol t "ph" "ph_status" ph_rule
  let t ← addStatusCol t "tds" "tds_status" tds_rule
  let t ← addStatusCol t "ec_val" "ec_status" ec_rule
  let t ← addStatusCol t "coliform" "coliform_status" coliform_rule
  let t ← addStatusCol t "hardness" "hardness_status" hardness_rule
  let t ← addStatusCol t "do" "do_status" do_rule
  Except.ok t

/-- The Model Bundle (`water_quality_ann.h5` + `scaler.pkl`): both transforms
are row-independent, so they are modelled per feature row; the classifier
returns the three class scores whose `np.argmax` is taken. -/
structure Bundle where
  scaler : List ℚ → List ℚ
  classify : List ℚ → ℚ × ℚ × ℚ

/-- `np.argmax` over the three class scores (first maximum wins). -/
def argmax3 : ℚ × ℚ × ℚ → ℚ
  | (a, b, c) => if b ≤ a ∧ c ≤ a then 0 else if c ≤ b then 1 else 2

/-- Line 123 `.map({0: "Good", 1: "Moderate", 2: "Poor"})`; an unmapped key
gives pandas `NaN`, modelled as `none`. -/
def interpMap (n : ℚ) : Option String :=
  if n = 0 then some "Good"
  else if n = 1 then some "Moderate"
  else if n = 2 then some "Poor"
  else none

/-- The documented fixed feature order of line 119: `df[["ec_val", "temp", "ph", "tds"]]`. -/
def featureCols : List String := ["ec_val", "temp", "ph", "tds"]

/-- Fail-fast traversal in the `Option` monad (`none` as soon as one element
fails), used to model the exception behaviour of the prediction `try`. -/
def mapOpt {α β : Type} (f : α → Option β) : List α → Option (List β)
  | [] => some []
  | a :: l => do
    let b ← f a
    let r ← mapOpt f l
    pure (b :: r)

/-- One row of the successful prediction branch: read the feature cells at
the selected column indices, scale, classify, take the argmax class and its
mapped label; `none` models a raised exception (non-numeric feature cell →
scaler `ValueError`). -/
def predictRow (b : Bundle) (idxs : List Nat) (row : List Cell) : Option (List Cell) := do
  let feats ← mapOpt (fun i => (row.get? i).bind asNum) idxs
  let p := argmax3 (b.classify (b.scaler feats))
  let interp ← interpMap p
  pure (row ++ [Cell.num p, Cell.str interp])

/-- The body of the AI-prediction `try` (lines 117-123): load succeeded, so
select the feature columns in the fixed order, and per row scale then
classify, appending `prediction` (the argmax class) and `interpretation`;
`none` models any raised exception (feature column missing → `KeyError`,
non-numeric feature cell → scaler `ValueError`). -/
def tryPredict (b : Bundle) (t : Table) : Option Table := do
  let idxs ← mapOpt (fun c => findIdx c t.headers) featureCols
  let rows ← mapOpt (predictRow b idxs) t.rows
  pure { headers := t.headers ++ ["prediction", "interpretation"], rows := rows }

/-- Lines 125-128, the `except` branch: EVERY row gets `interpretation =
"Unavailable"` and `prediction = -1`, in that column order. -/
def unavailTable (t : Table) : Table :=
  { headers := t.headers ++ ["interpretation", "prediction"],
    rows := t.rows.map fun row => row ++ [Cell.str "Unavailable", Cell.num (-1)] }

/-- Lines 115-128, the AI-prediction `try`/`except`: a `none` bundle models a
failed `load_model`/`joblib.load`; any failure inside the `try` falls back to
the all-rows-Unavailable table. -/
def predictStep (bundle : Option Bundle) (t : Table) : Table :=
  match bundle.bind fun b => tryPredict b t with
  | some t' => t'
  | none => unavailTable t

/-- Lines 178-181: the summary's parameter status columns, in source order. -/
def param_columns : List String :=
  ["ph_status", "tds_status", "ec_status", "coliform_status", "hardness_status", "do_status"]

/-- `col.replace('_status','').upper()` for the six summary parameters. -/
def renameParam (c : String) : String :=
  ((splitOnChar '_' c.toList).headD []).map Char.toUpper |>.asString

/-- The regex `"✅|💧|🧂|🪨"` of line 187 as a cell test: `astype(str)` of a
numeric cell never contains an emoji, a string cell matches iff it contains
one of the four compliant markers. -/
def isCompliantCell : Cell → Bool
  | Cell.num _ => false
  | Cell.str s =>
      (s.toList.any (· = '✅')) || (s.toList.any (· = '💧')) ||
      (s.toList.any (· = '🧂')) || (s.toList.any (· = '🪨'))

/-- Rows whose cell in column `i` matches the compliant regex (`safe_count`,
the `.sum()` of the boolean `str.contains` series). -/
def countCompliantAt (t : Table) (i : Nat) : Nat :=
  t.rows.countP fun row => (row.get? i).any isCompliantCell

/-- Lines 183-190, the Overall Safety Summary: for each parameter column that
exists (all six always do, having been unconditionally assigned), report
`safe_count / len(df) * 100` under the upper-cased parameter name. -/
def summaryData (t : Table) : List (String × ℚ) :=
  param_columns.filterMap fun col =>
    (findIdx col t.headers).map fun i =>
      (renameParam col, (countCompliantAt t i : ℚ) / (t.rows.length : ℚ) * 100)

/-- Line 167: the boiling-water advisory fires iff some `coliform_status`
cell is `"🚨 Unsafe"`. -/
def coliformAlert (t : Table) : Bool :=
  match findIdx "coliform_status" t.headers with
  | some i => t.rows.any fun row => decide ((row.get? i) = some (Cell.str "🚨 Unsafe"))
  | none => false

/-- The pipeline up to and including the WHO checks: EC split, inner merge on
`"Sample"`, header canonicalization, six status columns. -/
def fuseAndStatus (phys bact : Table) : Except String Table := do
  let phys ← splitEC phys
  let merged ← mergeTables phys bact "Sample"
  statusStage (lowerHeaders merged)

/-- The whole Dashboard batch transform: annotated table plus summary. -/
def dashboard (bundle : Option Bundle) (phys bact : Table) :
    Except String (Table × List (String × ℚ)) := do
  let t ← fuseAndStatus phys bact
  let t := predictStep bundle t
  Except.ok (t, summaryData t)

/-- Whether a run produced an output (no abort). -/
def runSucceeds (r : Except String (Table × List (String × ℚ))) : Bool :=
  match r with
  | Except.ok _ => true
  | Except.error _ => false

/-- The summary list of a run (empty when the run aborted). -/
def summaryOf (r : Except String (Table × List (String × ℚ))) : List (String × ℚ) :=
  match r with
  | Except.ok p => p.2
  | Except.error _ => []

/-- The last cell of the first output row — in a successful prediction run
this is the `interpretation` column. -/
def interpCellOf (r : Except String (Table × List (String × ℚ))) : Option Cell :=
  match r with
  | Except.ok p => (p.1.rows.headD []).getLast?
  | Except.error _ => none

instance {ε α : Type} [DecidableEq ε] [DecidableEq α] : DecidableEq (Except ε α) := fun x y =>
  match x, y with
  | Except.ok a, Except.ok b =>
      if h : a = b then Decidable.isTrue (by rw [h])
      else Decidable.isFalse (fun hc => h (Except.ok.inj hc))
  | Except.error a, Except.error b =>
      if h : a = b then Decidable.isTrue (by rw [h])
      else Decidable.isFalse (fun hc => h (Except.error.inj hc))
  | Except.ok _, Except.error _ => Decidable.isFalse (fun hc => Except.noConfusion hc)
  | Except.error _, Except.ok _ => Decidable.isFalse (fun hc => Except.noConfusion hc)

instance (t : Table) : Decidable (WF t) := by
  unfold WF; infer_instance

/-- Every status string the six WHO-check rules (and the absent-column branch)
can produce. -/
def statusVocab : List String :=
  ["✅ OK", "⚠️ Out of Range", "⚠️ High", "✅ Safe", "🚨 Unsafe",
   "💧 Soft", "🧂 Moderate", "🪨 Hard", "⚠️ Very Hard", "✅ Good", "⚠️ Low", "⚠️ Missing"]

/-- The status strings the summary's regex counts as compliant. -/
def compliantStatuses : List String :=
  ["✅ OK", "✅ Safe", "💧 Soft", "🧂 Moderate", "🪨 Hard", "✅ Good"]

/-- Modelled from the spec: the Feature Deriver of spec §4.3 is not part of
`src/app.py` (the repository source holds only the dashboard pipeline);
hardness is the defensive absolute value of the raw hardness. -/
def hardnessAbs (raw : ℚ) : ℚ := |raw|

/-- Modelled from the spec: the divisor of the TDS/hardness feature —
hardness values of exactly 0 are substituted by the constant 0.1. -/
def hardnessDivisor (raw : ℚ) : ℚ :=
  if hardnessAbs raw = 0 then 1 / 10 else hardnessAbs raw

/-- Modelled from the spec: TDS ÷ hardness with the 0 → 0.1 substitution. -/
def tdsOverHardness (tds raw : ℚ) : ℚ := tds / hardnessDivisor raw

/-- Spec §8 scenario physical table:
`{Sample: "S1", EC: "1200/25", pH: 7.0, TDS: 500, Hardness: 70}`. -/
def physT : Table :=
  { headers := ["Sample", "EC", "pH", "TDS", "Hardness"],
    rows := [[Cell.str "S1", Cell.str "1200/25", Cell.num 7, Cell.num 500, Cell.num 70]] }

/-- Spec §8 scenario bacterial table: `{Sample: "S1", Coliform: 0}`. -/
def bactT : Table :=
  { headers := ["Sample", "Coliform"],
    rows := [[Cell.str "S1", Cell.num 0]] }

/-- `physT` with the composite column header in lower case (`ec`). -/
def physLower : Table :=
  { headers := ["Sample", "ec", "pH", "TDS", "Hardness"],
    rows := [[Cell.str "S1", Cell.str "1200/25", Cell.num 7, Cell.num 500, Cell.num 70]] }

/-- `physT` with the sample-key header in lower case (`sample`). -/
def physKeyLower : Table :=
  { headers := ["sample", "EC", "pH", "TDS", "Hardness"],
    rows := [[Cell.str "S1", Cell.str "1200/25", Cell.num 7, Cell.num 500, Cell.num 70]] }

/-- `physT` with odd casing/whitespace on the non-key, non-composite headers. -/
def physVariant : Table :=
  { headers := ["Sample", "EC", " PH ", "tDs", "HARDNESS"],
    rows := [[Cell.str "S1", Cell.str "1200/25", Cell.num 7, Cell.num 500, Cell.num 70]] }

/-- `bactT` with odd casing/whitespace on the coliform header. -/
def bactVariant : Table :=
  { headers := ["Sample", " COLIFORM "],
    rows := [[Cell.str "S1", Cell.num 0]] }

/-- `physT` plus a second row whose composite EC value `abc/25` cannot be
converted to numbers. -/
def physBad : Table :=
  { headers := ["Sample", "EC", "pH", "TDS", "Hardness"],
    rows := [[Cell.str "S1", Cell.str "1200/25", Cell.num 7, Cell.num 500, Cell.num 70],
             [Cell.str "S2", Cell.str "abc/25", Cell.num 7, Cell.num 500, Cell.num 70]] }

/-- Bacterial table with the `Coliform` column entirely absent. -/
def bactNoCol : Table :=
  { headers := ["Sample"], rows := [[Cell.str "S1"]] }

/-- Physical table with the `pH` column entirely absent: the fused frame
then lacks the required `ph` feature column of the prediction stage. -/
def physNoPh : Table :=
  { headers := ["Sample", "EC", "TDS", "Hardness"],
    rows := [[Cell.str "S1", Cell.str "1200/25", Cell.num 500, Cell.num 70]] }

/-- Expected fused-and-annotated frame for `physNoPh`/`bactT`, before the
prediction columns. -/
def fsNoPh : Table :=
  { headers := ["sample", "ec", "tds", "hardness", "ec_val", "temp", "coliform",
                "ph_status", "tds_status", "ec_status", "coliform_status",
                "hardness_status", "do_status"],
    rows := [[Cell.str "S1", Cell.str "1200/25", Cell.num 500, Cell.num 70,
              Cell.num 1200, Cell.num 25, Cell.num 0,
              Cell.str "⚠️ Missing", Cell.str "✅ OK", Cell.str "✅ OK", Cell.str "✅ Safe",
              Cell.str "🧂 Moderate", Cell.str "⚠️ Missing"]] }

/-- A Model Bundle whose classifier always scores class 0 highest
(identity scaler). -/
def bundle0 : Bundle := { scaler := id, classify := fun _ => (9, 1, 0) }

/-- The single fused-and-annotated row of the spec §8 scenario. -/
def s1Row : List Cell :=
  [Cell.str "S1", Cell.str "1200/25", Cell.num 7, Cell.num 500, Cell.num 70,
   Cell.num 1200, Cell.num 25, Cell.num 0,
   Cell.str "✅ OK", Cell.str "✅ OK", Cell.str "✅ OK", Cell.str "✅ Safe",
   Cell.str "🧂 Moderate", Cell.str "⚠️ Missing"]

/-- Expected fused-and-annotated frame for the spec §8 scenario, before the
prediction columns. -/
def fsT : Table :=
  { headers := ["sample", "ec", "ph", "tds", "hardness", "ec_val", "temp", "coliform",
                "ph_status", "tds_status", "ec_status", "coliform_status",
                "hardness_status", "do_status"],
    rows := [s1Row] }

/-- Expected final annotated frame for the spec §8 scenario with no model. -/
def dfT : Table := unavailTable fsT

/-- Expected summary for the spec §8 scenario. -/
def summT : List (String × ℚ) :=
  [("PH", 100), ("TDS", 100), ("EC", 100), ("COLIFORM", 100), ("HARDNESS", 100), ("DO", 0)]

/-- Expected inner merge of the two scenario tables on `"Sample"`. -/
def mergedWitness : Table :=
  { headers := ["Sample", "EC", "pH", "TDS", "Hardness", "Coliform"],
    rows := [[Cell.str "S1", Cell.str "1200/25", Cell.num 7, Cell.num 500, Cell.num 70,
              Cell.num 0]] }

/-- The two cells the successful prediction branch appends for one feature row. -/
def predictedCells (b : Bundle) (vs : List ℚ) : List Cell :=
  let p := argmax3 (b.classify (b.scaler vs))
  [Cell.num p, Cell.str ((interpMap p).getD "nan")]

section Theorems

attribute [local semireducible] Rat.mul Rat.add Rat.sub Rat.inv Rat.ofScientific

theorem findIdx_lt_length (n : String) (l : List String) (i : Nat)
    (h : findIdx n l = some i) : i < l.length := by
  induction l generalizing i with
  | nil => cases h
  | cons a t ih =>
    have hlen : (a :: t).length = t.length + 1 := rfl
    unfold findIdx at h
    by_cases ha : a = n
    · rw [if_pos ha] at h
      cases h
      omega
    · rw [if_neg ha] at h
      cases hft : findIdx n t with
      | none => rw [hft] at h; cases h
      | some k =>
        rw [hft] at h
        have h2 : some (k + 1) = some i := h
        cases h2
        have := ih k hft
        omega

theorem findIdx_isSome_of_mem (n : String) (l : List String) (h : n ∈ l) :
    (findIdx n l).isSome = true := by
  induction l with
  | nil => cases h
  | cons a t ih =>
    unfold findIdx
    by_cases ha : a = n
    · simp [ha]
    · have hmem : n ∈ t := by
        rcases List.mem_cons.mp h with h1 | h1
        · exact absurd h1.symm ha
        · exact h1
      simp only [if_neg ha]
      cases hft : findIdx n t with
      | none => rw [hft] at ih; exact absurd (ih hmem) (by simp)
      | some k => simp

theorem findIdx_append (n : String) (l₁ l₂ : List String) :
    findIdx n (l₁ ++ l₂) =
      match findIdx n l₁ with
      | some i => some i
      | none => (findIdx n l₂).map (· + l₁.length) := by
  induction l₁ with
  | nil =>
    show findIdx n l₂ = (findIdx n l₂).map (· + 0)
    cases findIdx n l₂ <;> simp
  | cons a t ih =>
    have hl : findIdx n ((a :: t) ++ l₂) =
        if a = n then some 0 else (findIdx n (t ++ l₂)).map (· + 1) := rfl
    have hr : findIdx n (a :: t) =
        if a = n then some 0 else (findIdx n t).map (· + 1) := rfl
    rw [hl, hr]
    by_cases ha : a = n
    · rw [if_pos ha, if_pos ha]
    · rw [if_neg ha, if_neg ha, ih]
      cases hft : findIdx n t with
      | some i => rfl
      | none =>
        cases hfl : findIdx n l₂ with
        | none => rfl
        | some k =>
          rfl

theorem exceptBind_ok {α β : Type} (x : Except String α) (f : α → Except String β) (b : β)
    (h : x.bind f = Except.ok b) : ∃ a, x = Except.ok a ∧ f a = Except.ok b := by
  cases x with
  | error e => exact absurd h (by simp [Except.bind])
  | ok a => exact ⟨a, rfl, h⟩

theorem addStatusCol_headers (t : Table) (src dst : String) (rule : ℚ → String) (u : Table)
    (h : addStatusCol t src dst rule = Except.ok u) : u.headers = t.headers ++ [dst] := by
  unfold addStatusCol at h
  cases hfi : findIdx src t.headers with
  | none =>
    rw [hfi] at h
    cases h
    rfl
  | some i =>
    rw [hfi] at h
    obtain ⟨rows, hrows, hok⟩ := exceptBind_ok _ _ _ h
    cases hok
    rfl

theorem statusStage_headers (t u : Table) (h : statusStage t = Except.ok u) :
    u.headers = t.headers ++ param_columns := by
  unfold statusStage at h
  obtain ⟨t1, e1, h⟩ := exceptBind_ok _ _ _ h
  obtain ⟨t2, e2, h⟩ := exceptBind_ok _ _ _ h
  obtain ⟨t3, e3, h⟩ := exceptBind_ok _ _ _ h
  obtain ⟨t4, e4, h⟩ := exceptBind_ok _ _ _ h
  obtain ⟨t5, e5, h⟩ := exceptBind_ok _ _ _ h
  obtain ⟨t6, e6, h⟩ := exceptBind_ok _ _ _ h
  cases h
  rw [addStatusCol_headers _ _ _ _ _ e6, addStatusCol_headers _ _ _ _ _ e5,
      addStatusCol_headers _ _ _ _ _ e4, addStatusCol_headers _ _ _ _ _ e3,
      addStatusCol_headers _ _ _ _ _ e2, addStatusCol_headers _ _ _ _ _ e1]
  simp [param_columns]

theorem mem_summaryData (t : Table) (col : String) (i : Nat)
    (hc : col ∈ param_columns) (hf : findIdx col t.headers = some i) :
    (renameParam col, (countCompliantAt t i : ℚ) / (t.rows.length : ℚ) * 100) ∈ summaryData t := by
  unfold summaryData
  apply List.mem_filterMap.mpr
  exact ⟨col, hc, by rw [hf]; rfl⟩

theorem countCompliantAt_unavail (t : Table) (i : Nat) (hi : i < t.headers.length) (w : WF t) :
    countCompliantAt (unavailTable t) i = countCompliantAt t i := by
  unfold countCompliantAt unavailTable
  rw [List.countP_map]
  apply List.countP_congr
  intro row hrow
  have hlen : i < row.length := by rw [w row hrow]; exact hi
  show ((row ++ [Cell.str "Unavailable", Cell.num (-1)]).get? i).any isCompliantCell = true ↔ _
  rw [List.get?_append hlen]

theorem summaryData_unavail (t : Table) (w : WF t) :
    summaryData (unavailTable t) = summaryData t := by
  unfold summaryData
  apply List.filterMap_congr
  intro col hcol
  have hni : findIdx col ["interpretation", "prediction"] = none := by
    fin_cases hcol <;> rfl
  have hfa := findIdx_append col t.headers ["interpretation", "prediction"]
  rw [hni] at hfa
  have hhead : (unavailTable t).headers = t.headers ++ ["interpretation", "prediction"] := rfl
  rw [hhead, hfa]
  cases hft : findIdx col t.headers with
  | none => rfl
  | some i =>
    have hlt := findIdx_lt_length _ _ _ hft
    have hc := countCompliantAt_unavail t i hlt w
    have hlenr : (unavailTable t).rows.length = t.rows.length := by
      show (t.rows.map _).length = t.rows.length
      rw [List.length_map]
    show some (renameParam col,
          ((countCompliantAt (unavailTable t) i : ℚ) / ((unavailTable t).rows.length : ℚ) * 100)) =
        some (renameParam col, ((countCompliantAt t i : ℚ) / (t.rows.length : ℚ) * 100))
    rw [hc, hlenr]

theorem predictStep_none (t : Table) : predictStep none t = unavailTable t := rfl

theorem mapOpt_eq_map {α β : Type} (f : α → Option β) (g : α → β) (l : List α)
    (h : ∀ x ∈ l, f x = some (g x)) : mapOpt f l = some (l.map g) := by
  induction l with
  | nil => rfl
  | cons a t ih =>
    unfold mapOpt
    rw [h a (List.mem_cons_self a t), ih (fun x hx => h x (List.mem_cons_of_mem _ hx))]
    rfl

theorem argmax3_mem (s : ℚ × ℚ × ℚ) : argmax3 s = 0 ∨ argmax3 s = 1 ∨ argmax3 s = 2 := by
  obtain ⟨a, b, c⟩ := s
  have hdef : argmax3 (a, b, c) =
      if b ≤ a ∧ c ≤ a then (0 : ℚ) else if c ≤ b then 1 else 2 := rfl
  rw [hdef]
  split_ifs <;> simp

theorem interpMap_argmax3 (s : ℚ × ℚ × ℚ) :
    interpMap (argmax3 s) = some ((interpMap (argmax3 s)).getD "nan") := by
  rcases argmax3_mem s with h | h | h <;> rw [h] <;> rfl

theorem mapOpt_none_of_mem {α β : Type} (f : α → Option β) (l : List α) (x : α)
    (hx : x ∈ l) (hfx : f x = none) : mapOpt f l = none := by
  induction l with
  | nil => cases hx
  | cons a t ih =>
    unfold mapOpt
    rcases List.mem_cons.mp hx with h | h
    · subst h
      rw [hfx]
      rfl
    · cases hfa : f a with
      | none => rfl
      | some b =>
        rw [ih h]
        rfl

theorem tryPredict_none_of_missing (b : Bundle) (t : Table) (c : String)
    (hc : c ∈ featureCols) (hf : findIdx c t.headers = none) : tryPredict b t = none := by
  have hm : mapOpt (fun c => findIdx c t.headers) featureCols = none :=
    mapOpt_none_of_mem _ featureCols c hc hf
  unfold tryPredict
  rw [hm]
  rfl

theorem predictStep_some_none (b : Bundle) (t : Table) (h : tryPredict b t = none) :
    predictStep (some b) t = unavailTable t := by
  unfold predictStep
  show (match tryPredict b t with
        | some u => u
        | none => unavailTable t) = _
  rw [h]

theorem headerVariant_refl (h : String) : headerVariant h h := ⟨rfl, Iff.rfl, Iff.rfl⟩

theorem forall₂_headerVariant_refl (l : List String) : List.Forall₂ headerVariant l l := by
  induction l with
  | nil => exact List.Forall₂.nil
  | cons a t ih => exact List.Forall₂.cons (headerVariant_refl a) ih

theorem forall₂_append {R : String → String → Prop} :
    ∀ {l₁ l₂ l₃ l₄ : List String}, List.Forall₂ R l₁ l₂ → List.Forall₂ R l₃ l₄ →
      List.Forall₂ R (l₁ ++ l₃) (l₂ ++ l₄) := by
  intro l₁ l₂ l₃ l₄ h h34
  induction h with
  | nil => simpa using h34
  | cons hr ht ih => exact List.Forall₂.cons hr ih

theorem forall₂_eraseIdx {R : String → String → Prop} :
    ∀ {l l' : List String}, List.Forall₂ R l l' →
      ∀ j, List.Forall₂ R (l.eraseIdx j) (l'.eraseIdx j) := by
  intro l l' h
  induction h with
  | nil => intro j; exact List.Forall₂.nil
  | cons hr ht ih =>
    intro j
    cases j with
    | zero => exact ht
    | succ k => exact List.Forall₂.cons hr (ih k)

theorem findIdx_forall₂ {R : String → String → Prop} (n : String)
    (hn : ∀ h h', R h h' → (h' = n ↔ h = n)) :
    ∀ {l l' : List String}, List.Forall₂ R l l' → findIdx n l' = findIdx n l := by
  intro l l' hf
  induction hf with
  | nil => rfl
  | @cons a b l₁ l₂ hr ht ih =>
    show (if b = n then some 0 else (findIdx n l₂).map (· + 1)) =
      if a = n then some 0 else (findIdx n l₁).map (· + 1)
    by_cases ha : a = n
    · rw [if_pos ha, if_pos ((hn a b hr).mpr ha)]
    · rw [if_neg ha, if_neg (fun hb => ha ((hn a b hr).mp hb)), ih]

theorem map_canonHeader_eq :
    ∀ {l l' : List String}, List.Forall₂ headerVariant l l' →
      l'.map canonHeader = l.map canonHeader := by
  intro l l' h
  induction h with
  | nil => rfl
  | cons hr ht ih => simp [List.map_cons, hr.1, ih]

theorem splitEC_eq_some (t : Table) (i : Nat) (h : findIdx "EC" t.headers = some i) :
    splitEC t = (t.rows.mapM (splitRow i)).map
      (fun rows => Table.mk (t.headers ++ ["ec_val", "temp"]) rows) := by
  unfold splitEC
  rw [h]
  show (t.rows.mapM (splitRow i)).bind
      (fun rows => Except.ok (Table.mk (t.headers ++ ["ec_val", "temp"]) rows)) = _
  cases t.rows.mapM (splitRow i) <;> rfl

theorem mergeTables_variant (a a' b b' : Table)
    (ha : List.Forall₂ headerVariant a.headers a'.headers)
    (hb : List.Forall₂ headerVariant b.headers b'.headers)
    (har : a'.rows = a.rows) (hbr : b'.rows = b.rows) :
    (mergeTables a' b' "Sample" = Except.error "KeyError: merge key Sample absent" ∧
     mergeTables a b "Sample" = Except.error "KeyError: merge key Sample absent") ∨
    (∃ u u', mergeTables a b "Sample" = Except.ok u ∧
      mergeTables a' b' "Sample" = Except.ok u' ∧ lowerHeaders u' = lowerHeaders u) := by
  have hSa : findIdx "Sample" a'.headers = findIdx "Sample" a.headers :=
    findIdx_forall₂ _ (fun h h' hr => hr.2.2) ha
  have hSb : findIdx "Sample" b'.headers = findIdx "Sample" b.headers :=
    findIdx_forall₂ _ (fun h h' hr => hr.2.2) hb
  unfold mergeTables
  rw [hSa, hSb]
  cases hia : findIdx "Sample" a.headers with
  | none => exact Or.inl ⟨rfl, rfl⟩
  | some i =>
    cases hib : findIdx "Sample" b.headers with
    | none => exact Or.inl ⟨rfl, rfl⟩
    | some j =>
      refine Or.inr ⟨_, _, rfl, rfl, ?_⟩
      unfold lowerHeaders
      show Table.mk ((a'.headers ++ b'.headers.eraseIdx j).map canonHeader)
          (a'.rows.flatMap fun ra =>
            (b'.rows.filter fun rb => decide (rb.get? j = ra.get? i)).map fun rb =>
              ra ++ rb.eraseIdx j) =
        Table.mk ((a.headers ++ b.headers.eraseIdx j).map canonHeader)
          (a.rows.flatMap fun ra =>
            (b.rows.filter fun rb => decide (rb.get? j = ra.get? i)).map fun rb =>
              ra ++ rb.eraseIdx j)
      rw [har, hbr, map_canonHeader_eq (forall₂_append ha (forall₂_eraseIdx hb j))]

theorem fuseAndStatus_variant (phys phys' bact bact' : Table)
    (hp : List.Forall₂ headerVariant phys.headers phys'.headers)
    (hb : List.Forall₂ headerVariant bact.headers bact'.headers)
    (hpr : phys'.rows = phys.rows) (hbr : bact'.rows = bact.rows) :
    fuseAndStatus phys' bact' = fuseAndStatus phys bact := by
  have hEC : findIdx "EC" phys'.headers = findIdx "EC" phys.headers :=
    findIdx_forall₂ "EC" (fun h h' hr => hr.2.1) hp
  unfold fuseAndStatus
  cases hse : findIdx "EC" phys.headers with
  | none =>
    have e1 : splitEC phys = Except.error (ecErrMsg "KeyError: EC") := by
      unfold splitEC
      rw [hse]
    have e2 : splitEC phys' = Except.error (ecErrMsg "KeyError: EC") := by
      unfold splitEC
      rw [hEC, hse]
    rw [e1, e2]
    rfl
  | some i =>
    rw [splitEC_eq_some phys i hse, splitEC_eq_some phys' i (by rw [hEC, hse]), hpr]
    cases hm : phys.rows.mapM (splitRow i) with
    | error m => rfl
    | ok rows =>
      show (mergeTables (Table.mk (phys'.headers ++ ["ec_val", "temp"]) rows) bact'
            "Sample").bind (fun m => statusStage (lowerHeaders m)) =
        (mergeTables (Table.mk (phys.headers ++ ["ec_val", "temp"]) rows) bact
            "Sample").bind (fun m => statusStage (lowerHeaders m))
      rcases mergeTables_variant (Table.mk (phys.headers ++ ["ec_val", "temp"]) rows)
          (Table.mk (phys'.headers ++ ["ec_val", "temp"]) rows) bact bact'
          (forall₂_append hp (forall₂_headerVariant_refl _)) hb rfl hbr with
        ⟨e1, e2⟩ | ⟨u, u', hu, hu', hlow⟩
      · rw [e1, e2]
      · rw [hu, hu']
        show statusStage (lowerHeaders u') = statusStage (lowerHeaders u)
        rw [hlow]

/-- Claim C1: on the spec §8 scenario input (`physT`, `bactT`) the pipeline
produces exactly one fused record with `ec_val = 1200`, `temp = 25`,
pH status `✅ OK`, TDS status `✅ OK`, EC status `✅ OK`, hardness status
`🧂 Moderate` and coliform status `✅ Safe` (the emoji-prefixed strings are
the code's realization of the claim's status classes). -/
theorem scenario_s1_fused :
    dashboard none physT bactT = Except.ok (dfT, summT) ∧
    dfT.rows.length = 1 ∧
    (dfT.rows.headD []).get? 5 = some (Cell.num 1200) ∧
    (dfT.rows.headD []).get? 6 = some (Cell.num 25) ∧
    findIdx "ec_val" dfT.headers = some 5 ∧
    findIdx "temp" dfT.headers = some 6 ∧
    (dfT.rows.headD []).get? 8 = some (Cell.str "✅ OK") ∧
    (dfT.rows.headD []).get? 9 = some (Cell.str "✅ OK") ∧
    (dfT.rows.headD []).get? 10 = some (Cell.str "✅ OK") ∧
    (dfT.rows.headD []).get? 11 = some (Cell.str "✅ Safe") ∧
    (dfT.rows.headD []).get? 12 = some (Cell.str "🧂 Moderate") ∧
    findIdx "ph_status" dfT.headers = some 8 ∧
    findIdx "tds_status" dfT.headers = some 9 ∧
    findIdx "ec_status" dfT.headers = some 10 ∧
    findIdx "coliform_status" dfT.headers = some 11 ∧
    findIdx "hardness_status" dfT.headers = some 12 := by
  refine ⟨by decide, ?_, ?_, ?_, ?_, ?_, ?_, ?_, ?_, ?_, ?_, ?_, ?_, ?_, ?_, ?_⟩ <;> decide

/-- Claim C2: fusion is a pure inner join on the sample key — a fused record
with key `K` exists in the merge output iff `K` occurs in the key column of
BOTH input tables; keys missing from either side are silently excluded. -/
theorem fusion_inner_join (a b : Table) (i j : Nat) (K : Cell) (wa : WF a)
    (ha : findIdx "Sample" a.headers = some i) (hb : findIdx "Sample" b.headers = some j)
    (m : Table) (hm : mergeTables a b "Sample" = Except.ok m) :
    (∃ r ∈ m.rows, r.get? i = some K) ↔
      ((∃ ra ∈ a.rows, ra.get? i = some K) ∧ (∃ rb ∈ b.rows, rb.get? j = some K)) := by
  have hi : i < a.headers.length := findIdx_lt_length _ _ _ ha
  unfold mergeTables at hm
  rw [ha, hb] at hm
  cases hm
  constructor
  · rintro ⟨r, hr, hk⟩
    obtain ⟨ra, hra, hr2⟩ := List.mem_flatMap.mp hr
    obtain ⟨rb, hrb, hreq⟩ := List.mem_map.mp hr2
    obtain ⟨hrbmem, hrbeq⟩ := List.mem_filter.mp hrb
    have heq : rb.get? j = ra.get? i := of_decide_eq_true hrbeq
    have hlen : i < ra.length := by rw [wa ra hra]; exact hi
    rw [← hreq, List.get?_append hlen] at hk
    exact ⟨⟨ra, hra, hk⟩, ⟨rb, hrbmem, heq.trans hk⟩⟩
  · rintro ⟨⟨ra, hra, hka⟩, ⟨rb, hrb, hkb⟩⟩
    have hlen : i < ra.length := by rw [wa ra hra]; exact hi
    refine ⟨ra ++ rb.eraseIdx j, ?_, ?_⟩
    · exact List.mem_flatMap.mpr ⟨ra, hra, List.mem_map.mpr
        ⟨rb, List.mem_filter.mpr ⟨hrb, decide_eq_true (hkb.trans hka.symm)⟩, rfl⟩⟩
    · rw [List.get?_append hlen]
      exact hka

/-- Witness for C2 at the spec §8 scenario tables: key `"S1"` is in both
inputs and in the merge output. -/
theorem fusion_inner_join_witness :
    (∃ r ∈ mergedWitness.rows, r.get? 0 = some (Cell.str "S1")) ↔
      ((∃ ra ∈ physT.rows, ra.get? 0 = some (Cell.str "S1")) ∧
       (∃ rb ∈ bactT.rows, rb.get? 0 = some (Cell.str "S1"))) :=
  fusion_inner_join physT bactT 0 0 (Cell.str "S1") (by decide) (by decide) (by decide)
    mergedWitness (by decide)

/-- Counterexample to claim C3 as stated: with the bacterial `Coliform`
column absent from the input, the summary still reports a COLIFORM entry
(at 0 %), instead of excluding the parameter from the numeric compliance
percentages. -/
theorem missing_column_counted_cex :
    ("COLIFORM", (0 : ℚ)) ∈ summaryOf (dashboard none physT bactNoCol) := by decide

/-- Claim C3 (amended): a parameter whose source column is absent gets a
whole status column of `⚠️ Missing`; the status column therefore always
exists, so the aggregator still includes the parameter, reporting
`compliant-count / total-records` — which is 0 % because `Missing` never
matches the compliant regex — rather than excluding it; the issue-list half
holds: an all-`Missing` coliform column raises no coliform alert; and for
every parameter the denominator is the total record count. -/
theorem missing_column_included :
    (∀ (t : Table) (src dst : String) (rule : ℚ → String), findIdx src t.headers = none →
        addStatusCol t src dst rule = Except.ok
          { headers := t.headers ++ [dst],
            rows := t.rows.map fun row => row ++ [Cell.str "⚠️ Missing"] }) ∧
    isCompliantCell (Cell.str "⚠️ Missing") = false ∧
    (∀ (t : Table) (i : Nat), (∀ row ∈ t.rows, row.get? i = some (Cell.str "⚠️ Missing")) →
        countCompliantAt t i = 0) ∧
    (∀ (t : Table) (col : String) (i : Nat), col ∈ param_columns →
        findIdx col t.headers = some i →
        (renameParam col, (countCompliantAt t i : ℚ) / (t.rows.length : ℚ) * 100) ∈
          summaryData t) ∧
    (∀ (t : Table) (i : Nat), findIdx "coliform_status" t.headers = some i →
        (∀ row ∈ t.rows, row.get? i = some (Cell.str "⚠️ Missing")) →
        coliformAlert t = false) := by
  refine ⟨?_, by decide, ?_, fun t col i hc hf => mem_summaryData t col i hc hf, ?_⟩
  · intro t src dst rule h
    unfold addStatusCol
    rw [h]
  · intro t i h
    unfold countCompliantAt
    rw [List.countP_eq_zero]
    intro row hrow
    rw [h row hrow]
    decide
  · intro t i hf h
    unfold coliformAlert
    rw [hf]
    rw [List.any_eq_false]
    intro row hrow
    rw [h row hrow]
    decide

/-- Witness for the amended C3: the scenario bacterial table without a
`Coliform` column gets an all-`Missing` status column appended. -/
theorem missing_column_included_witness :
    addStatusCol bactNoCol "coliform" "coliform_status" coliform_rule = Except.ok
      { headers := ["Sample", "coliform_status"],
        rows := [[Cell.str "S1", Cell.str "⚠️ Missing"]] } :=
  missing_column_included.1 bactNoCol "coliform" "coliform_status" coliform_rule (by decide)

/-- Claim C4: when the Model Bundle is absent or fails to load (`bo = none`),
or a required feature column is missing from the fused frame (with any,
possibly loaded, bundle), the prediction stage never aborts the run — the
dashboard still returns its output, every record's interpretation is
`Unavailable` with sentinel prediction −1, the record count is unchanged,
all six status columns are still present, and the summary is the full
compliance summary of the pre-prediction table. -/
theorem model_absent_degrades (bo : Option Bundle) (phys bact t : Table) (w : WF t)
    (h : fuseAndStatus phys bact = Except.ok t)
    (hfail : bo = none ∨ ∃ c ∈ featureCols, findIdx c t.headers = none) :
    dashboard bo phys bact = Except.ok (unavailTable t, summaryData t) ∧
    (∀ row ∈ (unavailTable t).rows, ∃ r0, row = r0 ++ [Cell.str "Unavailable", Cell.num (-1)]) ∧
    (unavailTable t).rows.length = t.rows.length ∧
    (∀ col ∈ param_columns, (findIdx col (unavailTable t).headers).isSome = true) := by
  have hpred : predictStep bo t = unavailTable t := by
    rcases hfail with rfl | ⟨c, hc, hf⟩
    · exact predictStep_none t
    · cases bo with
      | none => exact predictStep_none t
      | some b => exact predictStep_some_none b t (tryPredict_none_of_missing b t c hc hf)
  refine ⟨?_, ?_, ?_, ?_⟩
  · unfold dashboard
    rw [h]
    show Except.ok (predictStep bo t, summaryData (predictStep bo t)) = _
    rw [hpred, summaryData_unavail t w]
  · intro row hrow
    obtain ⟨r0, hr0, hre⟩ := List.mem_map.mp hrow
    exact ⟨r0, hre.symm⟩
  · show (t.rows.map _).length = _
    rw [List.length_map]
  · intro col hc
    unfold fuseAndStatus at h
    obtain ⟨p, hp, h⟩ := exceptBind_ok _ _ _ h
    obtain ⟨m, hmm, h⟩ := exceptBind_ok _ _ _ h
    have hth := statusStage_headers _ _ h
    have hmem : col ∈ (unavailTable t).headers := by
      show col ∈ t.headers ++ ["interpretation", "prediction"]
      apply List.mem_append_left
      rw [hth]
      exact List.mem_append_right _ hc
    exact findIdx_isSome_of_mem _ _ hmem

/-- Witness for C4 at concrete inputs for both triggers: absent bundle, and
a loaded bundle with the required `ph` feature column missing. -/
theorem model_absent_degrades_witness :
    dashboard none physVariant bactVariant = Except.ok (unavailTable fsT, summaryData fsT) ∧
    dashboard (some bundle0) physNoPh bactT =
      Except.ok (unavailTable fsNoPh, summaryData fsNoPh) :=
  ⟨(model_absent_degrades none physVariant bactVariant fsT (by decide) (by decide)
      (Or.inl rfl)).1,
   (model_absent_degrades (some bundle0) physNoPh bactT fsNoPh (by decide) (by decide)
      (Or.inr ⟨"ph", by decide, by decide⟩)).1⟩

/-- Counterexample to claim C6: the pipeline is NOT invariant under header
casing — lower-casing the `EC` header makes the run abort (the EC split
looks up the exact-case header `EC` before any normalization happens), and
lower-casing `Sample` aborts the merge with a key error. -/
theorem header_case_cex :
    dashboard none physLower bactT = Except.error (ecErrMsg "KeyError: EC") ∧
    dashboard none physKeyLower bactT = Except.error "KeyError: merge key Sample absent" ∧
    dashboard none physLower bactT ≠ dashboard none physT bactT :=
  ⟨by decide, by decide, by decide⟩

/-- Claim C6 (amended): headers are canonicalized (trimmed, lower-cased)
only AFTER the EC split and the merge, so the pipeline is insensitive to
the casing/whitespace of every header EXCEPT the composite `EC` column and
the sample key `Sample`, which must match exactly: for ANY two inputs with
the same rows whose headers are pairwise casing/whitespace variants
(preserving exactly the spellings `EC` and `Sample`, see `headerVariant`),
the whole dashboard output is identical, for every bundle. -/
theorem normalization_after_merge (bundle : Option Bundle) (phys phys' bact bact' : Table)
    (hp : List.Forall₂ headerVariant phys.headers phys'.headers)
    (hb : List.Forall₂ headerVariant bact.headers bact'.headers)
    (hpr : phys'.rows = phys.rows) (hbr : bact'.rows = bact.rows) :
    dashboard bundle phys' bact' = dashboard bundle phys bact := by
  unfold dashboard
  rw [fuseAndStatus_variant phys phys' bact bact' hp hb hpr hbr]

/-- Witness for the amended C6: the odd-cased variant headers give exactly
the canonical scenario output. -/
theorem normalization_after_merge_witness :
    dashboard none physVariant bactVariant = dashboard none physT bactT :=
  normalization_after_merge none physT physVariant bactT bactVariant
    (by
      refine List.Forall₂.cons ?_ (List.Forall₂.cons ?_ (List.Forall₂.cons ?_
        (List.Forall₂.cons ?_ (List.Forall₂.cons ?_ List.Forall₂.nil)))) <;>
        exact ⟨by decide, by decide, by decide⟩)
    (by
      refine List.Forall₂.cons ?_ (List.Forall₂.cons ?_ List.Forall₂.nil) <;>
        exact ⟨by decide, by decide, by decide⟩)
    rfl rfl

/-- Counterexample to claim C7 as stated: one malformed composite value
(`abc/25` in row S2) aborts the whole upload — the pipeline returns no
table at all even though row S1 alone (see the second conjunct) would have
processed fine, so the caller is never given the option to skip the
offending rows. -/
theorem abort_on_malformed_cex :
    dashboard none physBad bactT = Except.error (ecErrMsg "abc/25") ∧
    runSucceeds (dashboard none physT bactT) = true :=
  ⟨by decide, by decide⟩

/-- Claim C7 (amended): when the EC split fails, the surfaced error message
names the offending value (see `ecErrMsg`), the exception is caught — but
the run is then unconditionally aborted (`st.stop()`): the error propagates
to the whole dashboard output and no rows are skipped. -/
theorem split_error_aborts_run (bundle : Option Bundle) (phys bact : Table) (msg : String)
    (h : splitEC phys = Except.error msg) :
    dashboard bundle phys bact = Except.error msg := by
  unfold dashboard fuseAndStatus
  rw [h]
  rfl

/-- Witness for the amended C7 at the concrete malformed table. -/
theorem split_error_aborts_run_witness :
    dashboard (some bundle0) physBad bactT = Except.error (ecErrMsg "abc/25") :=
  split_error_aborts_run (some bundle0) physBad bactT (ecErrMsg "abc/25") (by decide)

theorem predictRow_eq (b : Bundle) (i1 i2 i3 i4 : Nat) (row : List Cell) (v1 v2 v3 v4 : ℚ)
    (g1 : row.get? i1 = some (Cell.num v1)) (g2 : row.get? i2 = some (Cell.num v2))
    (g3 : row.get? i3 = some (Cell.num v3)) (g4 : row.get? i4 = some (Cell.num v4)) :
    predictRow b [i1, i2, i3, i4] row = some (row ++ predictedCells b [v1, v2, v3, v4]) := by
  unfold predictRow
  have hfeats : mapOpt (fun i => (row.get? i).bind asNum) [i1, i2, i3, i4] =
      some [v1, v2, v3, v4] := by
    simp only [mapOpt]
    rw [g1, g2, g3, g4]
    rfl
  rw [hfeats]
  show (interpMap (argmax3 (b.classify (b.scaler [v1, v2, v3, v4])))).bind
      (fun interp => some (row ++
        [Cell.num (argmax3 (b.classify (b.scaler [v1, v2, v3, v4]))), Cell.str interp])) = _
  rw [interpMap_argmax3]
  rfl

/-- Counterexample to claim C5 as stated: with a classifier whose argmax is
class index 0, the produced label is `Good` — the code's interpretation map
is `{0: Good, 1: Moderate, 2: Poor}`, i.e. label order Good, Moderate,
Poor, not the claimed order `{Poor, Moderate, Good}` (which would put Poor
at index 0). -/
theorem label_order_cex :
    interpCellOf (dashboard (some bundle0) physT bactT) = some (Cell.str "Good") ∧
    interpMap 0 = some "Good" ∧ interpMap 0 ≠ some "Poor" :=
  ⟨by decide, by decide, by decide⟩

/-- Claim C5 (amended): the Prediction Adapter selects the features in the
documented fixed order (`ec_val`, `temp`, `ph`, `tds`), applies the scaler
before the classifier, and maps the argmax class through the fixed map
0 → Good, 1 → Moderate, 2 → Poor (label order Good, Moderate, Poor). -/
theorem prediction_adapter_contract (b : Bundle) (t : Table) (i1 i2 i3 i4 : Nat)
    (h1 : findIdx "ec_val" t.headers = some i1) (h2 : findIdx "temp" t.headers = some i2)
    (h3 : findIdx "ph" t.headers = some i3) (h4 : findIdx "tds" t.headers = some i4)
    (hnum : ∀ row ∈ t.rows, ∃ v1 v2 v3 v4 : ℚ,
        row.get? i1 = some (Cell.num v1) ∧ row.get? i2 = some (Cell.num v2) ∧
        row.get? i3 = some (Cell.num v3) ∧ row.get? i4 = some (Cell.num v4)) :
    featureCols = ["ec_val", "temp", "ph", "tds"] ∧
    mapOpt (fun c => findIdx c t.headers) featureCols = some [i1, i2, i3, i4] ∧
    (∀ row ∈ t.rows, ∀ v1 v2 v3 v4 : ℚ,
        row.get? i1 = some (Cell.num v1) → row.get? i2 = some (Cell.num v2) →
        row.get? i3 = some (Cell.num v3) → row.get? i4 = some (Cell.num v4) →
        row ++ predictedCells b [v1, v2, v3, v4] ∈ (predictStep (some b) t).rows) ∧
    interpMap 0 = some "Good" ∧ interpMap 1 = some "Moderate" ∧ interpMap 2 = some "Poor" := by
  have hidx : mapOpt (fun c => findIdx c t.headers) featureCols = some [i1, i2, i3, i4] := by
    simp [mapOpt, featureCols, h1, h2, h3, h4]
  have hrows : mapOpt (predictRow b [i1, i2, i3, i4]) t.rows =
      some (t.rows.map fun row => (predictRow b [i1, i2, i3, i4] row).getD row) := by
    apply mapOpt_eq_map
    intro row hrow
    obtain ⟨v1, v2, v3, v4, g1, g2, g3, g4⟩ := hnum row hrow
    rw [predictRow_eq b i1 i2 i3 i4 row v1 v2 v3 v4 g1 g2 g3 g4]
    rfl
  have htry : tryPredict b t =
      some (Table.mk (t.headers ++ ["prediction", "interpretation"])
             (t.rows.map fun row => (predictRow b [i1, i2, i3, i4] row).getD row)) := by
    unfold tryPredict
    rw [hidx]
    show (mapOpt (predictRow b [i1, i2, i3, i4]) t.rows).bind
        (fun rows => some (Table.mk (t.headers ++ ["prediction", "interpretation"]) rows)) =
      some (Table.mk (t.headers ++ ["prediction", "interpretation"])
        (t.rows.map fun row => (predictRow b [i1, i2, i3, i4] row).getD row))
    rw [hrows]
    rfl
  have hstep : predictStep (some b) t =
      { headers := t.headers ++ ["prediction", "interpretation"],
        rows := t.rows.map fun row => (predictRow b [i1, i2, i3, i4] row).getD row } := by
    unfold predictStep
    show (match tryPredict b t with
          | some u => u
          | none => unavailTable t) = _
    rw [htry]
  refine ⟨rfl, hidx, ?_, rfl, rfl, rfl⟩
  intro row hrow v1 v2 v3 v4 g1 g2 g3 g4
  have hval : (predictRow b [i1, i2, i3, i4] row).getD row =
      row ++ predictedCells b [v1, v2, v3, v4] := by
    rw [predictRow_eq b i1 i2 i3 i4 row v1 v2 v3 v4 g1 g2 g3 g4]
    rfl
  rw [hstep, ← hval]
  show (fun r => (predictRow b [i1, i2, i3, i4] r).getD r) row ∈
      t.rows.map fun r => (predictRow b [i1, i2, i3, i4] r).getD r
  exact List.mem_map_of_mem _ hrow

/-- Witness for the amended C5 at the concrete scenario frame and the
class-0 bundle. -/
theorem prediction_adapter_contract_witness :
    s1Row ++ predictedCells bundle0 [1200, 25, 7, 500] ∈
      (predictStep (some bundle0) fsT).rows :=
  (prediction_adapter_contract bundle0 fsT 5 6 2 3 (by decide) (by decide) (by decide)
      (by decide)
      (by
        intro row hrow
        have hr : row = s1Row := List.mem_singleton.mp hrow
        subst hr
        exact ⟨1200, 25, 7, 500, rfl, rfl, rfl, rfl⟩)).2.2.1
    s1Row (by decide) 1200 25 7 500 rfl rfl rfl rfl

/-- Claim C8 (spec-modelled): computing the TDS/hardness ratio never
divides by zero — the divisor substitutes the constant 0.1 for a hardness
of exactly 0 and is nonzero for every input; multiplying the ratio back by
the divisor recovers the TDS, and at hardness 0 the ratio is TDS ÷ 0.1. -/
theorem hardness_smoothing :
    (∀ raw : ℚ, hardnessDivisor raw ≠ 0) ∧
    (∀ tds raw : ℚ, tdsOverHardness tds raw * hardnessDivisor raw = tds) ∧
    (∀ tds raw : ℚ, hardnessAbs raw = 0 → tdsOverHardness tds raw = tds / (1 / 10)) := by
  have hnz : ∀ raw : ℚ, hardnessDivisor raw ≠ 0 := by
    intro raw
    unfold hardnessDivisor
    split_ifs with h
    · norm_num
    · exact h
  refine ⟨hnz, ?_, ?_⟩
  · intro tds raw
    unfold tdsOverHardness
    exact div_mul_cancel₀ tds (hnz raw)
  · intro tds raw h
    unfold tdsOverHardness hardnessDivisor
    rw [if_pos h]

/-- Witness for C8 at TDS 500 and raw hardness 0. -/
theorem hardness_smoothing_witness :
    tdsOverHardness 500 0 = 500 / (1 / 10) :=
  hardness_smoothing.2.2 500 0 (by norm_num [hardnessAbs])

/-- Claim C9: prediction degradation is all-or-nothing — if the bundle is
`none`, or anything inside the `try` fails (e.g. the `ph` feature column is
absent), EVERY row gets interpretation `Unavailable` and numeric prediction
−1, a sentinel outside the valid class indices {0, 1, 2}, and both columns
are appended to the output table. -/
theorem predict_all_or_nothing :
    (∀ t, predictStep none t = unavailTable t) ∧
    (∀ b t, tryPredict b t = none → predictStep (some b) t = unavailTable t) ∧
    (∀ b t, findIdx "ph" t.headers = none → tryPredict b t = none) ∧
    (∀ t row, row ∈ (unavailTable t).rows →
        ∃ r0, row = r0 ++ [Cell.str "Unavailable", Cell.num (-1)]) ∧
    (∀ t, (unavailTable t).headers = t.headers ++ ["interpretation", "prediction"]) ∧
    ((-1 : ℚ) ≠ 0 ∧ (-1 : ℚ) ≠ 1 ∧ (-1 : ℚ) ≠ 2) := by
  refine ⟨fun t => rfl, ?_, ?_, ?_, fun t => rfl, by norm_num⟩
  · intro b t h
    unfold predictStep
    show (match tryPredict b t with
          | some u => u
          | none => unavailTable t) = _
    rw [h]
  · intro b t h
    have hm : mapOpt (fun c => findIdx c t.headers) featureCols = none := by
      cases hf1 : findIdx "ec_val" t.headers <;> cases hf2 : findIdx "temp" t.headers <;>
        simp [mapOpt, featureCols, hf1, hf2, h]
    unfold tryPredict
    rw [hm]
    rfl
  · intro t row hrow
    obtain ⟨r0, hr0, hre⟩ := List.mem_map.mp hrow
    exact ⟨r0, hre.symm⟩

/-- Witness for C9 at concrete tables for both failure modes. -/
theorem predict_all_or_nothing_witness :
    predictStep none fsT = unavailTable fsT ∧
    predictStep (some bundle0) bactNoCol = unavailTable bactNoCol :=
  ⟨predict_all_or_nothing.1 fsT,
   predict_all_or_nothing.2.1 bundle0 bactNoCol (by decide)⟩

/-- Claim C10: the summary's compliant regex matches exactly the statuses
OK, Good, Safe, Soft, Moderate and Hard (so hardness `🪨 Hard`, i.e. any
value ≤ 180, is compliant and only `⚠️ Very Hard` is not), and each
reported percentage is compliant-count over the TOTAL record count, with
`Missing` rows in the denominator but never in the numerator. -/
theorem summary_compliant_statuses :
    (∀ s ∈ statusVocab, (isCompliantCell (Cell.str s) = true ↔ s ∈ compliantStatuses)) ∧
    (∀ x : ℚ, x ≤ 180 → isCompliantCell (Cell.str (hardness_rule x)) = true) ∧
    (∀ x : ℚ, 180 < x → isCompliantCell (Cell.str (hardness_rule x)) = false) ∧
    isCompliantCell (Cell.str "⚠️ Missing") = false ∧
    (∀ (t : Table) (col : String) (i : Nat), col ∈ param_columns →
        findIdx col t.headers = some i →
        (renameParam col, (countCompliantAt t i : ℚ) / (t.rows.length : ℚ) * 100) ∈
          summaryData t) := by
  refine ⟨by decide, ?_, ?_, by decide, fun t col i hc hf => mem_summaryData t col i hc hf⟩
  · intro x hx
    unfold hardness_rule
    split_ifs with a1 a2 <;> decide
  · intro x hx
    unfold hardness_rule
    split_ifs with a1 a2 a3
    · exact absurd a1 (by linarith)
    · exact absurd a2 (by linarith)
    · exact absurd a3 (by linarith)
    · decide

/-- Witness for C10: Hard is compliant, 150 is compliant, 200 is not, and
the scenario frame's coliform entry uses the total-record denominator. -/
theorem summary_compliant_statuses_witness :
    (isCompliantCell (Cell.str "🪨 Hard") = true ↔ "🪨 Hard" ∈ compliantStatuses) ∧
    isCompliantCell (Cell.str (hardness_rule 150)) = true ∧
    isCompliantCell (Cell.str (hardness_rule 200)) = false ∧
    ("COLIFORM", (countCompliantAt fsT 11 : ℚ) / (fsT.rows.length : ℚ) * 100) ∈
      summaryData fsT :=
  ⟨summary_compliant_statuses.1 "🪨 Hard" (by decide),
   summary_compliant_statuses.2.1 150 (by norm_num),
   summary_compliant_statuses.2.2.1 200 (by norm_num),
   summary_compliant_statuses.2.2.2.2 fsT "coliform_status" 11 (by decide) (by decide)⟩

end Theorems

end WaterApp
